import Mathlib

/-!
Verification of the botium-connector-chatgpt turn-processing core
(`src/connectorResponsesApi.js`) against its natural-language specification.

The JavaScript source is shallowly embedded: pure helpers become Lean
functions, the stateful orchestrator becomes explicit state passing over a
provider-outcome oracle, and JavaScript builtins that the repository merely
calls (JSON.parse, JSON.stringify, the regex engine, base64/UTF-8 codecs,
the XLSX library, the OpenAI client) are modelled as oracle parameters.
All definitions are structurally recursive so that concrete runs evaluate
inside the kernel.
-/

namespace ChatGpt

/-! ## JavaScript string primitives
`String.prototype.startsWith`, `split`, `includes`, `endsWith` and friends,
implemented over character lists so they compute by kernel reduction. -/

/-- Models `startsWith` over character lists. -/
def listStartsWith : List Char → List Char → Bool
  | _, [] => true
  | [], _ :: _ => false
  | c :: cs, p :: ps => c = p && listStartsWith cs ps

/-- JavaScript `s.startsWith(p)`. -/
def strStartsWith (s p : String) : Bool :=
  listStartsWith s.toList p.toList

/-- JavaScript `s.endsWith(p)`. -/
def strEndsWith (s p : String) : Bool :=
  listStartsWith s.toList.reverse p.toList.reverse

/-- Fuel-indexed worker for `jsSplit`; the fuel is the input length, so the
zero-fuel fallback is unreachable for a nonempty separator. -/
def jsSplitFuel (sep : List Char) : Nat → List Char → List Char → List (List Char)
  | 0, rest, acc => [acc.reverse ++ rest]
  | _ + 1, [], acc => [acc.reverse]
  | n + 1, c :: cs, acc =>
      if listStartsWith (c :: cs) sep then
        acc.reverse :: jsSplitFuel sep n (List.drop (sep.length - 1) cs) []
      else
        jsSplitFuel sep n cs (c :: acc)

/-- JavaScript `s.split(sep)` for a nonempty separator: leftmost-first match,
continuing after each match. -/
def jsSplit (s sep : String) : List String :=
  (jsSplitFuel sep.toList s.toList.length s.toList []).map String.mk

/-- JavaScript `s.includes(sep)`. -/
def strIncludes (s sep : String) : Bool :=
  (jsSplit s sep).length > 1

/-- ASCII lower-casing, for the case-insensitive filename-extension regex. -/
def charLower (c : Char) : Char :=
  if 65 ≤ c.toNat ∧ c.toNat ≤ 90 then Char.ofNat (c.toNat + 32) else c

/-- Lower-case every character of a string. -/
def strLower (s : String) : String :=
  String.mk (s.toList.map charLower)

/-! ## Redactor string helpers
(`maskBase64InObject`, source lines 117-313) -/

/-- The ASCII whitespace characters matched by the JavaScript regex `\s`
(the redactor's inputs of interest are ASCII). -/
def jsWhitespaceChar (c : Char) : Bool :=
  c = ' ' || c = '\t' || c = '\n' || c = Char.ofNat 13 || c = Char.ofNat 11 || c = Char.ofNat 12

/-- Models the trim-and-strip of source line 128, removing every whitespace
character (trimming first is redundant). -/
def jsStripWs (s : String) : String :=
  String.mk (s.toList.filter (fun c => !(jsWhitespaceChar c)))

/-- One character of the base64 alphabet, as in the source regex
`^[A-Za-z0-9+/=]+$` (line 129). -/
def isBase64Char (c : Char) : Bool :=
  c.isAlphanum || c = '+' || c = '/' || c = '='

/-- Models `^[A-Za-z0-9+/=]+$` on a string already known nonempty. -/
def allBase64 (s : String) : Bool :=
  s.toList.all isBase64Char

/-- Models `(trimmed.match(/[A-Za-z0-9]/g) || []).length` (source line 132). -/
def alnumCount (s : String) : Nat :=
  (s.toList.filter Char.isAlphanum).length

/-- Models `count / length > 0.8` from source line 132, written exactly over the
naturals: `5 * count > 4 * length`. -/
def hasGoodBase64Ratio (s : String) : Bool :=
  5 * alnumCount s > 4 * s.length

/-- The placeholder `[base64_data_masked:<n>_chars]` (source lines 123, 134). -/
def base64Placeholder (n : Nat) : String :=
  "[base64_data_masked:" ++ toString n ++ "_chars]"

/-- The placeholder `[buffer_masked:<n>_bytes]` (source lines 140, 171). -/
def bufferPlaceholder (n : Nat) : String :=
  "[buffer_masked:" ++ toString n ++ "_bytes]"

/-- The string branch of `maskBase64InObject` (source lines 118-137): first the
data-URI check (`data:` prefix with a `;base64,` payload longer than 50
characters keeps `obj.split(';')[0]` and masks the payload), then the generic
base64 heuristic (whitespace-stripped length over 50, all base64-alphabet
characters, alphanumeric ratio strictly above 80%) which masks the whole
string tagged with its original character count. -/
def maskString (s : String) : String :=
  let dataUriMasked : Option String :=
    if strStartsWith s "data:" then
      match (jsSplit s ";base64,").get? 1 with
      | some base64Part =>
          if base64Part.length > 50 then
            some ("data:" ++ ((jsSplit s ";").headD "") ++ ";base64," ++
              base64Placeholder base64Part.length)
          else none
      | none => none
    else none
  match dataUriMasked with
  | some r => r
  | none =>
      let trimmed := jsStripWs s
      if 50 < trimmed.length ∧ allBase64 trimmed = true ∧ hasGoodBase64Ratio trimmed = true then
        base64Placeholder s.length
      else s

/-- C6 (amended): for every plain string input (no `data:` prefix), the
redaction function replaces it with a placeholder containing the string's
character count if and only if its whitespace-stripped form has length greater
than 50, consists entirely of base64-alphabet characters, and has *strictly
more than* 80% alphanumeric characters (the source line 132 comparison is
strict); otherwise the string is returned unchanged. -/
theorem c6_plain_string_masking (s : String) (h : strStartsWith s "data:" = false) :
    maskString s =
      if 50 < (jsStripWs s).length ∧ allBase64 (jsStripWs s) = true ∧
          5 * alnumCount (jsStripWs s) > 4 * (jsStripWs s).length
      then base64Placeholder s.length
      else s := by
  unfold maskString hasGoodBase64Ratio
  simp [h]

/-- Witness for `c6_plain_string_masking`: a string of 60 repeated alphanumeric
characters yields the placeholder containing the count 60, and a 10-character
alphanumeric string is returned unchanged. -/
theorem c6_plain_string_masking_witness :
    strStartsWith (String.mk (List.replicate 60 'A')) "data:" = false ∧
    maskString (String.mk (List.replicate 60 'A')) = "[base64_data_masked:60_chars]" ∧
    maskString "0123456789" = "0123456789" := by
  refine ⟨by decide, ?_, ?_⟩
  · rw [c6_plain_string_masking _ (by decide)]; decide
  · rw [c6_plain_string_masking _ (by decide)]; decide

/-- C6 counterexample to the claim as stated: a 60-character string with
exactly 80% alphanumeric characters (48 letters, 12 `+` signs) satisfies every
condition of the claim — stripped length over 50, all base64-alphabet
characters, *at least* 80% alphanumeric — yet the code returns it unchanged,
not as a placeholder, because the source compares the ratio strictly. -/
theorem c6_ratio_boundary_counterexample :
    let s := String.mk (List.replicate 48 'A' ++ List.replicate 12 '+')
    strStartsWith s "data:" = false ∧
    50 < (jsStripWs s).length ∧
    allBase64 (jsStripWs s) = true ∧
    10 * alnumCount (jsStripWs s) ≥ 8 * (jsStripWs s).length ∧
    maskString s = s ∧
    maskString s ≠ base64Placeholder s.length := by decide

/-! ## JavaScript values
The redactor walks arbitrary nested JavaScript values: strings, numbers,
booleans, null/undefined, binary Buffers (only their byte length is
observable to the redactor), arrays, plain objects (ordered key/value lists,
keys unique), and Error objects (name, message, stack, plus extra own
properties). -/

inductive JSValue where
  | str : String → JSValue
  | num : Int → JSValue
  | bool : Bool → JSValue
  | null : JSValue
  | buffer : Nat → JSValue
  | arr : List JSValue → JSValue
  | obj : List (String × JSValue) → JSValue
  | jserror : String → String → String → List (String × JSValue) → JSValue

/-- JavaScript property access `o[key]` on a plain object. -/
def lookupField : List (String × JSValue) → String → Option JSValue
  | [], _ => none
  | (k, v) :: fs, key => if k = key then some v else lookupField fs key

/-- Models the source check that `obj.type` is the literal string Buffer and
`obj.data` is an array (source lines 170, 192): an object in Buffer
JSON-serialization form, returning its `data` length. -/
def bufferShapedLen (fs : List (String × JSValue)) : Option Nat :=
  match lookupField fs "type", lookupField fs "data" with
  | some (.str "Buffer"), some (.arr l) => some l.length
  | _, _ => none

/-- Models `value.trim()`. -/
def jsTrim (s : String) : String :=
  String.mk (((s.toList.dropWhile (jsWhitespaceChar ·)).reverse.dropWhile
    (jsWhitespaceChar ·)).reverse)

/-- Models the source test that `parsed` is truthy and of JavaScript object
type (source lines 212, 265, 289); null is falsy, so excluded. -/
def jsTruthyObj : JSValue → Bool
  | .obj _ => true
  | .arr _ => true
  | .jserror _ _ _ _ => true
  | _ => false

/-! A size measure on JavaScript values, dominating the recursion depth of the
redactor; it seeds the fuel of `maskFuel`. -/
mutual

def jsize : JSValue → Nat
  | .str s => s.length + 1
  | .num _ => 1
  | .bool _ => 1
  | .null => 1
  | .buffer _ => 1
  | .arr l => jsizeList l + 1
  | .obj fs => jsizeFields fs + 1
  | .jserror _ m _ extras => m.length + jsizeFields extras + 1

def jsizeList : List JSValue → Nat
  | [] => 0
  | v :: vs => jsize v + jsizeList vs + 1

def jsizeFields : List (String × JSValue) → Nat
  | [] => 0
  | (_, v) :: fs => jsize v + jsizeFields fs + 1

end

/-! ## The redactor (`maskBase64InObject`, source lines 117-313)

The JavaScript builtins the redactor calls are supplied as oracles:
`JSON.parse` (returning `none` when it throws), `JSON.stringify`, and the two
chained `String.prototype.replace` calls with the `"buffer"`/`"file_base64"`
regexes (source lines 225-237). The recursion is fuel-indexed because the
source recurses into values freshly produced by `JSON.parse`, which a fully
general oracle does not bound; with fuel seeded by `jsize` the fuel never
runs out on oracle-free paths, and an exhausted fuel returns the value
unchanged. -/

structure RedactOracles where
  jsonParse : String → Option JSValue
  jsonStringify : JSValue → String
  maskBufferFieldRegexes : String → String

mutual

/-- Models `maskBase64InObject`, fuel-indexed. Cases follow the source exactly:
strings (lines 118-137), Buffers (139-141), arrays (142-144), Error objects
(146-167), Buffer-serialization objects (170-172), and plain objects
field-by-field (173-310). -/
def maskFuel (ex : RedactOracles) : Nat → JSValue → JSValue
  | 0, v => v
  | _ + 1, .str s => .str (maskString s)
  | _ + 1, .num i => .num i
  | _ + 1, .bool b => .bool b
  | _ + 1, .null => .null
  | _ + 1, .buffer len => .str (bufferPlaceholder len)
  | n + 1, .arr items => .arr (maskFuelList ex n items)
  | n + 1, .jserror nm msg stk extras =>
      .obj ([("name", .str nm), ("message", .str (maskString msg)), ("stack", .str stk)] ++
        maskFuelFields ex n (extras.filter (fun kv =>
          !(kv.1 = "name" || kv.1 = "message" || kv.1 = "stack"))))
  | n + 1, .obj fs =>
      match bufferShapedLen fs with
      | some len => .str (bufferPlaceholder len)
      | none => .obj (maskFuelFields ex n fs)

/-- Models `obj.map(item => maskBase64InObject(item))` (source line 143). -/
def maskFuelList (ex : RedactOracles) : Nat → List JSValue → List JSValue
  | 0, l => l
  | _ + 1, [] => []
  | n + 1, v :: vs => maskFuel ex n v :: maskFuelList ex n vs

/-- The `for (const [key, value] of Object.entries(obj))` loop
(source lines 174-309). -/
def maskFuelFields (ex : RedactOracles) :
    Nat → List (String × JSValue) → List (String × JSValue)
  | 0, fs => fs
  | _ + 1, [] => []
  | n + 1, (k, v) :: fs => (k, maskFieldValue ex n k v) :: maskFuelFields ex n fs

/-- Per-key dispatch of the object loop: `buffer` (lines 176-196), `mediaUri`
(197-203), `text` (204-259), `file_base64`/`output` (260-282), `output_text`
(283-305), and the default recursive case (307). -/
def maskFieldValue (ex : RedactOracles) : Nat → String → JSValue → JSValue
  | 0, _, v => v
  | n + 1, k, v =>
      if k = "buffer" then
        match v with
        | .buffer len => .str (bufferPlaceholder len)
        | .str sv =>
            let t := jsStripWs sv
            if 50 < t.length ∧ allBase64 t = true then .str (base64Placeholder sv.length)
            else if 200 < sv.length then
              .str ("[buffer_data_masked:" ++ toString sv.length ++ "_chars]")
            else maskFuel ex n (.str sv)
        | .obj fs' =>
            match bufferShapedLen fs' with
            | some len => .str (bufferPlaceholder len)
            | none => maskFuel ex n (.obj fs')
        | w => maskFuel ex n w
      else if k = "mediaUri" then
        match v with
        | .str sv =>
            if 100 < sv.length ∧ allBase64 sv = true ∧ strStartsWith sv "http" = false then
              .str (base64Placeholder sv.length)
            else maskFuel ex n (.str sv)
        | w => maskFuel ex n w
      else if k = "text" then
        match v with
        | .str sv =>
            let trimmed := jsTrim sv
            if strStartsWith trimmed "\x7b" || strStartsWith trimmed "[" then
              match ex.jsonParse sv with
              | some parsed =>
                  if jsTruthyObj parsed then
                    .str (ex.jsonStringify (maskFuel ex n parsed))
                  else maskFuel ex n (.str sv)
              | none =>
                  if strIncludes sv "\x22buffer\x22" ∧ 500 < sv.length then
                    .str (ex.maskBufferFieldRegexes sv)
                  else
                    let t4 := jsStripWs trimmed
                    if 50 < t4.length ∧ allBase64 t4 = true then
                      .str (base64Placeholder sv.length)
                    else .str sv
            else
              let t4 := jsStripWs trimmed
              if 50 < t4.length ∧ allBase64 t4 = true then
                .str (base64Placeholder sv.length)
              else maskFuel ex n (.str sv)
        | w => maskFuel ex n w
      else if k = "file_base64" ∨ k = "output" ∨ k = "output_text" then
        match v with
        | .str sv =>
            match ex.jsonParse sv with
            | some parsed =>
                if jsTruthyObj parsed then
                  .str (ex.jsonStringify (maskFuel ex n parsed))
                else maskFuel ex n (.str sv)
            | none =>
                if 100 < sv.length ∧ allBase64 sv = true then
                  .str (base64Placeholder sv.length)
                else .str sv
        | w => maskFuel ex n w
      else maskFuel ex n v

end

/-- Models `maskBase64InObject`, with fuel seeded so that it never runs out unless
the `JSON.parse` oracle keeps growing values. -/
def maskBase64InObject (ex : RedactOracles) (v : JSValue) : JSValue :=
  maskFuel ex (jsize v) v

/-- Degenerate builtin oracles for concrete runs: `JSON.parse` always throws,
`JSON.stringify` and the regex replacements are irrelevant on such runs. -/
def plainOracles : RedactOracles where
  jsonParse := fun _ => none
  jsonStringify := fun _ => ""
  maskBufferFieldRegexes := fun s => s

/-! ## Shape preservation of the redactor -/

/-- Is the value a plain object? -/
def isObjVal : JSValue → Bool
  | .obj _ => true
  | _ => false

/-! `benign`: values containing no binary Buffer, no Error object, and no
object in Buffer JSON-serialization form — the values on which the redactor
is shape-preserving. -/
mutual

def benign : JSValue → Bool
  | .str _ => true
  | .num _ => true
  | .bool _ => true
  | .null => true
  | .buffer _ => false
  | .jserror _ _ _ _ => false
  | .arr l => benignList l
  | .obj fs => (bufferShapedLen fs).isNone && benignFields fs

def benignList : List JSValue → Bool
  | [] => true
  | v :: vs => benign v && benignList vs

def benignFields : List (String × JSValue) → Bool
  | [] => true
  | (_, v) :: fs => benign v && benignFields fs

end

/-! `sameShape a b`: `b` has the same shape as `a` — strings map to strings,
arrays to arrays of the same length elementwise, objects to objects with the
same keys in the same order, and non-string primitives are unchanged. -/
mutual

def sameShape : JSValue → JSValue → Bool
  | .str _, .str _ => true
  | .num a, .num b => a == b
  | .bool a, .bool b => a == b
  | .null, .null => true
  | .arr xs, .arr ys => sameShapeList xs ys
  | .obj fs, .obj gs => sameShapeFields fs gs
  | _, _ => false

def sameShapeList : List JSValue → List JSValue → Bool
  | [], [] => true
  | x :: xs, y :: ys => sameShape x y && sameShapeList xs ys
  | _, _ => false

def sameShapeFields : List (String × JSValue) → List (String × JSValue) → Bool
  | [], [] => true
  | (k1, v1) :: fs, (k2, v2) :: gs => k1 == k2 && sameShape v1 v2 && sameShapeFields fs gs
  | _, _ => false

end

theorem sameShape_str (s t : String) : sameShape (.str s) (.str t) = true := rfl

theorem maskFuel_str_shape (ex : RedactOracles) (n : Nat) (sv : String) :
    sameShape (.str sv) (maskFuel ex n (.str sv)) = true := by
  cases n <;> rfl

mutual

theorem benign_sameShape_refl : ∀ v, benign v = true → sameShape v v = true
  | .str _, _ => rfl
  | .num _, _ => by simp [sameShape]
  | .bool _, _ => by simp [sameShape]
  | .null, _ => rfl
  | .buffer _, h => by simp [benign] at h
  | .jserror _ _ _ _, h => by simp [benign] at h
  | .arr l, h => by
      simp only [benign] at h
      simp only [sameShape]
      exact benignList_sameShape_refl l h
  | .obj fs, h => by
      simp only [benign, Bool.and_eq_true] at h
      simp only [sameShape]
      exact benignFields_sameShape_refl fs h.2

theorem benignList_sameShape_refl : ∀ l, benignList l = true → sameShapeList l l = true
  | [], _ => rfl
  | v :: vs, h => by
      simp only [benignList, Bool.and_eq_true] at h
      simp only [sameShapeList, Bool.and_eq_true]
      exact ⟨benign_sameShape_refl v h.1, benignList_sameShape_refl vs h.2⟩

theorem benignFields_sameShape_refl :
    ∀ fs, benignFields fs = true → sameShapeFields fs fs = true
  | [], _ => rfl
  | (k, v) :: fs, h => by
      simp only [benignFields, Bool.and_eq_true] at h
      simp only [sameShapeFields, Bool.and_eq_true]
      exact ⟨⟨by simp, benign_sameShape_refl v h.1⟩, benignFields_sameShape_refl fs h.2⟩

end

/-- The shape-preservation invariant, proved simultaneously for the four
mutually recursive workers of the redactor by induction on the fuel. -/
theorem maskFuel_shape (ex : RedactOracles) :
    ∀ n : Nat,
      (∀ v, benign v = true → sameShape v (maskFuel ex n v) = true) ∧
      (∀ l, benignList l = true → sameShapeList l (maskFuelList ex n l) = true) ∧
      (∀ fs, benignFields fs = true → sameShapeFields fs (maskFuelFields ex n fs) = true) ∧
      (∀ k v, benign v = true → sameShape v (maskFieldValue ex n k v) = true) := by
  intro n
  induction n with
  | zero =>
      exact ⟨fun v h => benign_sameShape_refl v h,
        fun l h => benignList_sameShape_refl l h,
        fun fs h => benignFields_sameShape_refl fs h,
        fun _ v h => benign_sameShape_refl v h⟩
  | succ n ih =>
      obtain ⟨ihV, ihL, ihF, ihK⟩ := ih
      refine ⟨?_, ?_, ?_, ?_⟩
      · intro v h
        cases v with
        | str s => exact sameShape_str _ _
        | num i => simp [maskFuel, sameShape]
        | bool b => simp [maskFuel, sameShape]
        | null => simp [maskFuel, sameShape]
        | buffer len => simp [benign] at h
        | jserror a b c d => simp [benign] at h
        | arr l =>
            simp only [benign] at h
            simp only [maskFuel, sameShape]
            exact ihL l h
        | obj fs =>
            simp only [benign, Bool.and_eq_true, Option.isNone_iff_eq_none] at h
            obtain ⟨h1, h2⟩ := h
            simp only [maskFuel]
            cases hbs : bufferShapedLen fs with
            | some len => simp [h1] at hbs
            | none =>
                dsimp only
                simp only [sameShape]
                exact ihF fs h2
      · intro l h
        cases l with
        | nil => simp [maskFuelList, sameShapeList]
        | cons v vs =>
            simp only [benignList, Bool.and_eq_true] at h
            simp only [maskFuelList, sameShapeList, Bool.and_eq_true]
            exact ⟨ihV v h.1, ihL vs h.2⟩
      · intro fs h
        cases fs with
        | nil => simp [maskFuelFields, sameShapeFields]
        | cons kv fs =>
            obtain ⟨k, v⟩ := kv
            simp only [benignFields, Bool.and_eq_true] at h
            simp only [maskFuelFields, sameShapeFields, Bool.and_eq_true]
            exact ⟨⟨by simp, ihK k v h.1⟩, ihF fs h.2⟩
      · intro k v h
        simp only [maskFieldValue]
        split_ifs with hk1 hk2 hk3 hk4
        · cases v with
          | buffer len => simp [benign] at h
          | str sv =>
              dsimp only
              split_ifs with c1 c2
              · exact sameShape_str _ _
              · exact sameShape_str _ _
              · exact maskFuel_str_shape ex n sv
          | obj fs' =>
              dsimp only
              simp only [benign, Bool.and_eq_true, Option.isNone_iff_eq_none] at h
              cases hbs : bufferShapedLen fs' with
              | some len => simp [h.1] at hbs
              | none =>
                  dsimp only
                  exact ihV _ (by simp [benign, h.1, h.2])
          | num i => dsimp only; exact ihV _ h
          | bool b => dsimp only; exact ihV _ h
          | null => dsimp only; exact ihV _ h
          | arr l => dsimp only; exact ihV _ h
          | jserror a b c d => simp [benign] at h
        · cases v with
          | str sv =>
              dsimp only
              split_ifs with c1
              · exact sameShape_str _ _
              · exact maskFuel_str_shape ex n sv
          | num i => dsimp only; exact ihV _ h
          | bool b => dsimp only; exact ihV _ h
          | null => dsimp only; exact ihV _ h
          | arr l => dsimp only; exact ihV _ h
          | obj fs' => dsimp only; exact ihV _ h
          | buffer len => simp [benign] at h
          | jserror a b c d => simp [benign] at h
        · cases v with
          | str sv =>
              dsimp only
              by_cases c1 :
                  (strStartsWith (jsTrim sv) "\x7b" || strStartsWith (jsTrim sv) "[") = true
              · simp only [if_pos c1]
                cases hp : ex.jsonParse sv with
                | some parsed =>
                    dsimp only
                    split_ifs with c2
                    · exact sameShape_str _ _
                    · exact maskFuel_str_shape ex n sv
                | none =>
                    dsimp only
                    split_ifs with c2 c3
                    · exact sameShape_str _ _
                    · exact sameShape_str _ _
                    · exact sameShape_str _ _
              · simp only [if_neg c1]
                split_ifs with c2
                · exact sameShape_str _ _
                · exact maskFuel_str_shape ex n sv
          | num i => dsimp only; exact ihV _ h
          | bool b => dsimp only; exact ihV _ h
          | null => dsimp only; exact ihV _ h
          | arr l => dsimp only; exact ihV _ h
          | obj fs' => dsimp only; exact ihV _ h
          | buffer len => simp [benign] at h
          | jserror a b c d => simp [benign] at h
        · cases v with
          | str sv =>
              dsimp only
              cases hp : ex.jsonParse sv with
              | some parsed =>
                  dsimp only
                  split_ifs with c2
                  · exact sameShape_str _ _
                  · exact maskFuel_str_shape ex n sv
              | none =>
                  dsimp only
                  split_ifs with c2
                  · exact sameShape_str _ _
                  · exact sameShape_str _ _
          | num i => dsimp only; exact ihV _ h
          | bool b => dsimp only; exact ihV _ h
          | null => dsimp only; exact ihV _ h
          | arr l => dsimp only; exact ihV _ h
          | obj fs' => dsimp only; exact ihV _ h
          | buffer len => simp [benign] at h
          | jserror a b c d => simp [benign] at h
        · exact ihV _ h

/-- C5 (amended): the redaction function is total and pure by
construction, and on every value containing no binary Buffer, no Error
object, and no object in Buffer JSON-serialization form, it preserves shape:
objects map to objects with the same keys in order, arrays to arrays of the
same length in order, strings to strings, and non-string primitives are
returned unchanged. (Buffers and Buffer-serialization objects become
placeholder strings, and Error objects become plain objects, so those are
excluded from the shape clause.) -/
theorem c5_shape_preservation (ex : RedactOracles) (v : JSValue) (h : benign v = true) :
    sameShape v (maskBase64InObject ex v) = true :=
  (maskFuel_shape ex (jsize v)).1 v h

/-- Witness for `c5_shape_preservation` on a concrete nested value. -/
theorem c5_shape_preservation_witness :
    benign (JSValue.obj [("a", .str "x"), ("b", .arr [.num 1, .null])]) = true ∧
    sameShape (JSValue.obj [("a", .str "x"), ("b", .arr [.num 1, .null])])
      (maskBase64InObject plainOracles
        (JSValue.obj [("a", .str "x"), ("b", .arr [.num 1, .null])])) = true :=
  ⟨rfl, c5_shape_preservation plainOracles _ rfl⟩

/-- C5 counterexample to the claim as stated: an object in Buffer
JSON-serialization form (type the literal string Buffer, data the array
1, 2, 3) is a plain object, yet the redactor maps it to a placeholder *string*, not to an object
with the same keys (source lines 170-172). -/
theorem c5_buffer_object_counterexample :
    isObjVal (JSValue.obj [("type", .str "Buffer"), ("data", .arr [.num 1, .num 2, .num 3])])
      = true ∧
    maskBase64InObject plainOracles
      (JSValue.obj [("type", .str "Buffer"), ("data", .arr [.num 1, .num 2, .num 3])])
      = .str "[buffer_masked:3_bytes]" ∧
    isObjVal (maskBase64InObject plainOracles
      (JSValue.obj [("type", .str "Buffer"), ("data", .arr [.num 1, .num 2, .num 3])]))
      = false :=
  ⟨rfl, rfl, rfl⟩

/-! ## Attachment classification
(`buildUserContent`, source lines 554-611) -/

/-- JavaScript truthiness of a possibly-absent string (`undefined`, `null`
and the empty string are falsy). -/
def jsTruthyStr : Option String → Bool
  | some s => s != ""
  | none => false

/-- Models the image check of source line 562, `mimeType?.startsWith` with
the image/ prefix: `undefined` for a nullish MIME type, which is falsy. -/
def isImageMime : Option String → Bool
  | some m => strStartsWith m "image/"
  | none => false

/-- The fixed structured-text MIME set (source line 563). -/
def structuredTextMimes : List String :=
  ["application/json", "application/xml", "application/yaml", "application/x-yaml",
   "application/csv"]

/-- Models `isStructuredTextMime` (source line 563); `includes(undefined)` is false. -/
def isStructuredTextMime : Option String → Bool
  | some m => structuredTextMimes.contains m
  | none => false

/-- Models `isTextByMime` of source line 564: the MIME type starts with the
text/ prefix or belongs to the structured set. -/
def isTextByMime (mime : Option String) : Bool :=
  (match mime with
   | some m => strStartsWith m "text/"
   | none => false) || isStructuredTextMime mime

/-- The extensions matched by `/\.(txt|md|json|xml|ya?ml|csv)$/i`
(source line 565). -/
def textExtensions : List String :=
  [".txt", ".md", ".json", ".xml", ".yaml", ".yml", ".csv"]

/-- The case-insensitive text-extension regex test (source line 565). -/
def isTextByName (name : String) : Bool :=
  textExtensions.any (fun e => strEndsWith (strLower name) e)

/-- Models `!mimeType` (source line 566): nullish or empty MIME type. -/
def jsFalsyMime : Option String → Bool
  | none => true
  | some m => m == ""

/-- Models `isTextByMime || (!mimeType && isTextByName)` (source line 566). -/
def isTextAttachment (mime : Option String) (name : String) : Bool :=
  isTextByMime mime || (jsFalsyMime mime && isTextByName name)

/-- The decided handling strategy for one attachment. -/
inductive Disposition where
  | skip
  | image
  | inlineText
  deriving Repr, DecidableEq

/-- The classification order of `buildUserContent` (source lines 558-611):
missing byte content skips, then image MIME, then the text criteria, then
skip. -/
def disposition (buf : Option (List Nat)) (mime : Option String) (name : String) :
    Disposition :=
  match buf with
  | none => .skip
  | some _ =>
      if isImageMime mime then .image
      else if isTextAttachment mime name then .inlineText
      else .skip

/-! ## Provider-facing data model for the turn orchestrator -/

/-- A JavaScript `Error`, observable through its message. -/
structure JsError where
  message : String
  deriving Repr, DecidableEq

/-- One spreadsheet cell (string, number, or boolean). -/
inductive Cell where
  | s : String → Cell
  | n : Int → Cell
  | b : Bool → Cell
  deriving Repr, DecidableEq

/-- Rows of cells, as accepted by `createExcelFile`. -/
abbrev ExcelData := List (List Cell)

/-- The parsed `arguments` object of a tool call; `data` may be absent. -/
structure ExcelArgs where
  data : Option ExcelData
  deriving Repr, DecidableEq

/-- Models `item.arguments`: either a still-serialized string (run through
`JSON.parse`, source lines 486-488) or already an object. -/
inductive FnArgs where
  | argStr : String → FnArgs
  | argObj : ExcelArgs → FnArgs
  deriving Repr, DecidableEq

/-- One entry of `response.output`. -/
inductive OutputItem where
  | functionCall (name : String) (callId : String) (arguments : FnArgs)
  | other
  deriving Repr, DecidableEq

/-- A Responses-API result: `output` is `none` when it is not an array
(source line 472 checks `Array.isArray`). -/
structure ApiResponse where
  id : Option String
  output : Option (List OutputItem)
  output_text : Option String
  deriving Repr, DecidableEq

/-- One fragment of the user message content (source lines 551, 572, 593, 604). -/
inductive ContentItem where
  | inputText (text : String)
  | inputImageUrl (url : String)
  | inputImageFile (fileId : String)
  deriving Repr, DecidableEq

/-- One entry of the `input` array of a provider call. -/
inductive InputItem where
  | message (role : String) (content : List ContentItem)
  | functionCallOutput (callId : String) (output : String)
  deriving Repr, DecidableEq

/-- The outbound Botium message assembled at source lines 665-682. The
`sourceData` field (the redacted raw response) is not modelled — no claim
depends on it. Structured fields hold the JavaScript values assigned to
them; `none` means the field was never assigned. -/
structure BotMsg where
  sender : String
  messageText : Option JSValue
  buttons : Option JSValue
  media : Option JSValue
  attachments : Option JSValue
  cards : Option JSValue
  intent : Option JSValue

/-- Externally observable actions of one turn, in order. -/
inductive Event where
  | apiCall (previousResponseId : Option String) (input : List InputItem)
  | uploadCall
  | fileDelete (id : String)
  | botSays (m : BotMsg) (deferred : Bool)

/-- The configuration resolved at `Build` (source lines 342-343). -/
structure Config where
  fileSendMode : String
  respondAsBotiumJson : Bool

/-- The result of `openai.files.create`; `id` may be absent (source line 591). -/
structure FileUploadResult where
  id : Option String
  deriving Repr, DecidableEq

/-- Connector state plus the oracle of pending remote-call outcomes, consumed
in call order: `api` for `openai.responses.create`, `uploads` for
`openai.files.create`. -/
structure RunState where
  lastResponseId : Option String
  api : List (Except JsError ApiResponse)
  uploads : List (Except JsError FileUploadResult)

/-- The JavaScript builtins and libraries the orchestrator calls. -/
structure Externals where
  base64Encode : List Nat → String
  utf8Decode : List Nat → String
  xlsxWriteB64 : Option ExcelData → Except String String
  parseExcelArgs : String → Except String ExcelArgs
  jsonParse : String → Option JSValue

/-- One inbound attachment descriptor. -/
structure MediaAtt where
  mediaUri : Option String
  altText : Option String
  name : Option String
  buffer : Option (List Nat)
  mimeType : Option String

/-- One inbound message (`msg.media || []` is the attachment list). -/
structure InboundMsg where
  messageText : Option String
  media : List MediaAtt

/-! ## Lifecycle (constructor line 321, `Start` lines 540-543,
`Stop` lines 702-705) -/

/-- Constructor: `this.lastResponseId = null`. -/
def initialRunState (api : List (Except JsError ApiResponse))
    (uploads : List (Except JsError FileUploadResult)) : RunState :=
  { lastResponseId := none, api := api, uploads := uploads }

/-- Models `Start`: `this.lastResponseId = null`. -/
def connectorStart (s : RunState) : RunState :=
  { s with lastResponseId := none }

/-- Models `Stop`: `this.lastResponseId = null`. -/
def connectorStop (s : RunState) : RunState :=
  { s with lastResponseId := none }

/-! ## Provider call (`callOpenAi`, source lines 405-459) -/

/-- Models `callOpenAi`: issues `openai.responses.create` with
`previous_response_id := lastResponseId`, and after a successful call updates
`lastResponseId` when the result carries a truthy `id`
(`if (result?.id) this.lastResponseId = result.id`, source lines 454-456).
A failed call leaves the state untouched. An exhausted oracle counts as a
transport error. -/
def callOpenAi (s : RunState) (input : List InputItem) :
    Except JsError ApiResponse × RunState × List Event :=
  match s.api with
  | [] => (.error ⟨"no more provider responses"⟩, s, [.apiCall s.lastResponseId input])
  | r :: rest =>
      match r with
      | .ok resp =>
          (.ok resp,
           { s with api := rest,
                    lastResponseId := if jsTruthyStr resp.id then resp.id else s.lastResponseId },
           [.apiCall s.lastResponseId input])
      | .error e => (.error e, { s with api := rest }, [.apiCall s.lastResponseId input])

/-! ## Tool executor (`createExcelFile`, source lines 352-366) -/

/-- Models `createExcelFile`: runs the XLSX library pipeline and wraps any library
error as `Failed to create Excel file: <cause>`. -/
def createExcelFile (ext : Externals) (data : Option ExcelData) : Except JsError String :=
  match ext.xlsxWriteB64 data with
  | .ok b64 => .ok b64
  | .error m => .error ⟨"Failed to create Excel file: " ++ m⟩

/-- The outbound attachment pushed for a generated workbook
(source lines 491-495). -/
def excelAttachment (b64 : String) : JSValue :=
  .obj [("name", .str "excel.xlsx"),
        ("mimeType", .str "application/vnd.openxmlformats-officedocument.spreadsheetml.sheet"),
        ("base64", .str b64)]

/-- Models the arguments handling of source lines 486-488: a string is run
through `JSON.parse`, an already-parsed object is used as-is. -/
def resolveArgs (ext : Externals) : FnArgs → Except String ExcelArgs
  | .argStr s => ext.parseExcelArgs s
  | .argObj a => .ok a

/-- The `response.output.forEach` loop (source lines 476-510): for each
`createExcelFile` call, parse arguments and generate the workbook, pushing an
outbound attachment and an empty-payload `function_call_output`; a throwing
parse or generation is caught and the call dropped; other tool calls are
collected but produce nothing. Returns (attachments, tool-result
placeholders). -/
def processOutputItems (ext : Externals) : List OutputItem → List JSValue × List InputItem
  | [] => ([], [])
  | item :: rest =>
      let tail := processOutputItems ext rest
      match item with
      | .functionCall name callId args =>
          if name = "createExcelFile" then
            match resolveArgs ext args with
            | .ok a =>
                match createExcelFile ext a.data with
                | .ok b64 =>
                    (excelAttachment b64 :: tail.1, .functionCallOutput callId "" :: tail.2)
                | .error _ => tail
            | .error _ => tail
          else tail
      | .other => tail

/-! ## Tool round-trip (`extractExcelFilesFromResponse`, source lines 466-538) -/

/-- Models `extractExcelFilesFromResponse`: scans the output items, and when at least
one tool-result placeholder exists issues the follow-up call carrying only
those placeholders. A follow-up failure is rethrown by the inner catch
(source line 526) but then caught and only logged by the outer catch (source
lines 532-534), so it leaves `followUpResponse` as `null` and the function
returns normally. -/
def extractExcelFilesFromResponse (ext : Externals) (response : ApiResponse)
    (s : RunState) : Option ApiResponse × List JSValue × RunState × List Event :=
  match response.output with
  | none => (none, [], s, [])
  | some items =>
      let processed := processOutputItems ext items
      match processed.2 with
      | [] => (none, processed.1, s, [])
      | fc :: fcs =>
          match callOpenAi s (fc :: fcs) with
          | (.ok r, s2, evs) => (some r, processed.1, s2, evs)
          | (.error _, s2, evs) => (none, processed.1, s2, evs)

/-! ## Content building (`buildUserContent`, source lines 548-620) -/

/-- Models `const name = a.mediaUri || a?.altText || a?.name`, with JavaScript's
string coercion of `undefined` for the later regex test and template
(source line 555). -/
def effName (a : MediaAtt) : String :=
  (if jsTruthyStr a.mediaUri then a.mediaUri
   else if jsTruthyStr a.altText then a.altText
   else a.name).getD "undefined"

/-- The inline text fragment for a text attachment (source lines 604-607). -/
def textFragment (name content : String) : ContentItem :=
  .inputText ("File attachment (prepared, no need to download or read out)\nname:\n" ++
    name ++ "\nContent:\n" ++ content)

/-- The inline image fragment in base64 mode (source lines 571-575). -/
def imageUrlFragment (mime : Option String) (b64 : String) : ContentItem :=
  .inputImageUrl ("data:" ++ mime.getD "undefined" ++ ";base64," ++ b64)

/-- Prepend the upload event to a `processAttachments` result. -/
def afterUpload (r : Except JsError (List ContentItem) × List String × RunState × List Event) :
    Except JsError (List ContentItem) × List String × RunState × List Event :=
  (r.1, r.2.1, r.2.2.1, Event.uploadCall :: r.2.2.2)

/-- The attachment loop of `buildUserContent` (source lines 554-612):
in arrival order, skip attachments without bytes, inline or upload images
according to the transport mode (recording successful upload handles, and
skipping silently when the upload result has no truthy id, source lines
591-599), inline text attachments, and skip the rest. An upload failure
aborts immediately with the wrapping error of source line 588, keeping the
handles recorded so far. -/
def processAttachments (cfg : Config) (ext : Externals) :
    List MediaAtt → List ContentItem → List String → RunState →
    Except JsError (List ContentItem) × List String × RunState × List Event
  | [], content, ids, s => (.ok content, ids, s, [])
  | a :: rest, content, ids, s =>
      match a.buffer with
      | none => processAttachments cfg ext rest content ids s
      | some buf =>
          if isImageMime a.mimeType then
            if cfg.fileSendMode = "base64" then
              processAttachments cfg ext rest
                (content ++ [imageUrlFragment a.mimeType (ext.base64Encode buf)]) ids s
            else
              match s.uploads with
              | [] =>
                  (.error ⟨"Error uploading image to OpenAI: no upload result"⟩, ids, s,
                   [.uploadCall])
              | .error e :: us =>
                  (.error ⟨"Error uploading image to OpenAI: " ++ e.message⟩, ids,
                   { s with uploads := us }, [.uploadCall])
              | .ok u :: us =>
                  if jsTruthyStr u.id then
                    afterUpload (processAttachments cfg ext rest
                      (content ++ [.inputImageFile (u.id.getD "")])
                      (ids ++ [u.id.getD ""]) { s with uploads := us })
                  else
                    afterUpload (processAttachments cfg ext rest content ids
                      { s with uploads := us })
          else if isTextAttachment a.mimeType (effName a) then
            processAttachments cfg ext rest
              (content ++ [textFragment (effName a) (ext.utf8Decode buf)]) ids s
          else
            processAttachments cfg ext rest content ids s

/-- Models `buildUserContent` (source lines 548-620): the optional text fragment
followed by the attachment fragments, wrapped as one user message. -/
def buildUserContent (cfg : Config) (ext : Externals) (msg : InboundMsg) (s : RunState) :
    Except JsError (List InputItem) × List String × RunState × List Event :=
  let initialContent : List ContentItem :=
    if jsTruthyStr msg.messageText then [.inputText (msg.messageText.getD "")] else []
  match processAttachments cfg ext msg.media initialContent [] s with
  | (.ok content, ids, s2, evs) => (.ok [.message "user" content], ids, s2, evs)
  | (.error e, ids, s2, evs) => (.error e, ids, s2, evs)

/-! ## Output parsing and emission (source lines 630-685) -/

/-- Models `assistantText = parsed.messageText || outputText` (source line 646).
When `messageText` is a truthy non-string, JavaScript would keep that
non-string value; it is modelled as the fallback text because in that branch
`botiumJson` is set and `assistantText` is observably unused (the emission
condition is already true and `messageText` is taken from `botiumJson`). -/
def assistantTextOf (parsed : JSValue) (ot : String) : String :=
  match parsed with
  | .obj fs =>
      match lookupField fs "messageText" with
      | some (.str t) => if t = "" then ot else t
      | _ => ot
  | _ => ot

/-- The output_text handling of source lines 632-662: empty or absent text
yields nothing; in strict mode the text is run through `JSON.parse` and kept
as the structured payload when it is a truthy object, else it falls back to
plain text. Returns `(assistantText, botiumJson)`. -/
def parseFinalOutput (cfg : Config) (ext : Externals) (resp : ApiResponse) :
    String × Option JSValue :=
  match resp.output_text with
  | none => ("", none)
  | some ot =>
      if ot = "" then ("", none)
      else if cfg.respondAsBotiumJson then
        match ext.jsonParse ot with
        | some parsed =>
            if jsTruthyObj parsed then (assistantTextOf parsed ot, some parsed)
            else (ot, none)
        | none => (ot, none)
      else (ot, none)

/-- Property access used by the botMsg assembly: `botiumJson.<key>` when the
payload is an object (undefined on anything else). -/
def payloadField (p : JSValue) (key : String) : Option JSValue :=
  match p with
  | .obj fs => lookupField fs key
  | _ => none

/-- Models `if (Array.isArray(botiumJson.<key>)) botMsg.<key> = botiumJson.<key>`
(source lines 671-674). -/
def payloadArrayField (p : JSValue) (key : String) : Option JSValue :=
  match payloadField p key with
  | some (.arr l) => some (.arr l)
  | _ => none

/-- Models `_.isNil` on a property value. -/
def jsIsNil : Option JSValue → Bool
  | none => true
  | some .null => true
  | some _ => false

/-- The outbound message assembly (source lines 665-682). The structured
fields come from the parsed payload when one exists, otherwise only the plain
text is set; afterwards `botMsg.attachments = excelAttachments`
unconditionally, because `excelAttachments` is always an array
(source line 681). -/
def buildBotMsg (botiumJson : Option JSValue) (assistantText : String)
    (excelAttachments : List JSValue) : BotMsg :=
  let base : BotMsg :=
    { sender := "bot", messageText := none, buttons := none, media := none,
      attachments := none, cards := none, intent := none }
  let m1 :=
    match botiumJson with
    | some p =>
        { base with
          messageText := payloadField p "messageText"
          buttons := payloadArrayField p "buttons"
          media := payloadArrayField p "media"
          attachments := payloadArrayField p "attachments"
          cards := payloadArrayField p "cards"
          intent := if jsIsNil (payloadField p "intent") then none
                    else payloadField p "intent" }
    | none =>
        if assistantText = "" then base
        else { base with messageText := some (.str assistantText) }
  { m1 with attachments := some (.arr excelAttachments) }

/-- The `finally` cleanup (source lines 691-699): one `files.del` call per
recorded handle. -/
def cleanupEvents (ids : List String) : List Event :=
  ids.map Event.fileDelete

/-! ## The turn orchestrator (`UserSays`, source lines 545-700) -/

/-- Everything one turn produces: the raised-or-resolved result of
`UserSays`, the final state, the observable events in order, plus ghost
observations of intermediate values for stating specifications. -/
structure TurnResult where
  result : Except JsError Unit
  state : RunState
  events : List Event
  uploadedFileIds : List String
  responseToUse : Option ApiResponse
  assistantText : String
  botiumJson : Option JSValue
  excelAttachments : List JSValue
  emitted : Option BotMsg

/-- Models `UserSays`. Key control-flow facts mirrored from the source:
`buildUserContent` is awaited *outside* the `try`/`finally` (line 622), so an
upload failure propagates unwrapped and no cleanup runs; a primary-call
failure is wrapped as `Error from ChatGPT: <message>` and cleanup runs; the
tool round-trip never throws; emission happens iff the assistant text is
nonempty or a structured payload parsed, via `setTimeout(..., 0)` (deferred);
cleanup deletes each recorded handle once. -/
def UserSays (cfg : Config) (ext : Externals) (msg : InboundMsg) (s0 : RunState) :
    TurnResult :=
  match buildUserContent cfg ext msg s0 with
  | (.error e, ids, s1, evs1) =>
      { result := .error e, state := s1, events := evs1, uploadedFileIds := ids,
        responseToUse := none, assistantText := "", botiumJson := none,
        excelAttachments := [], emitted := none }
  | (.ok input, ids, s1, evs1) =>
      match callOpenAi s1 input with
      | (.error e, s2, evs2) =>
          { result := .error ⟨"Error from ChatGPT: " ++ e.message⟩, state := s2,
            events := evs1 ++ evs2 ++ cleanupEvents ids, uploadedFileIds := ids,
            responseToUse := none, assistantText := "", botiumJson := none,
            excelAttachments := [], emitted := none }
      | (.ok response, s2, evs2) =>
          match extractExcelFilesFromResponse ext response s2 with
          | (followUpResponse, excelAtts, s3, evs3) =>
              let responseToUse := followUpResponse.getD response
              let parsed := parseFinalOutput cfg ext responseToUse
              let emittedPair :
                  Option BotMsg × List Event :=
                if parsed.1 ≠ "" ∨ parsed.2.isSome then
                  let m := buildBotMsg parsed.2 parsed.1 excelAtts
                  (some m, [.botSays m true])
                else (none, [])
              { result := .ok (), state := s3,
                events := evs1 ++ evs2 ++ evs3 ++ emittedPair.2 ++ cleanupEvents ids,
                uploadedFileIds := ids, responseToUse := some responseToUse,
                assistantText := parsed.1, botiumJson := parsed.2,
                excelAttachments := excelAtts, emitted := emittedPair.1 }

/-! ## Event observations -/

/-- Is the event a sink invocation (`queueBotSays`)? -/
def isBotSaysEvent : Event → Bool
  | .botSays _ _ => true
  | _ => false

/-- Is the event a `files.del` call? -/
def isFileDeleteEvent : Event → Bool
  | .fileDelete _ => true
  | _ => false

/-- How many times the external sink was invoked. -/
def sinkCount (evs : List Event) : Nat :=
  (evs.filter isBotSaysEvent).length

/-- The deletion calls among the events. -/
def deletedIds (evs : List Event) : List Event :=
  evs.filter isFileDeleteEvent

/-! ## Concrete fixtures for closed runs -/

/-- Degenerate external builtins for concrete runs: the XLSX library
serializes every workbook to a fixed base64 string, and `JSON.parse` always
throws. -/
def fixtureExt : Externals where
  base64Encode := fun _ => ""
  utf8Decode := fun _ => ""
  xlsxWriteB64 := fun _ => .ok "UEsDBA=="
  parseExcelArgs := fun _ => .error "unused"
  jsonParse := fun _ => none

/-- Inline transport, plain-text output mode. -/
def c1Config : Config := { fileSendMode := "base64", respondAsBotiumJson := false }

/-- A primary response carrying one well-formed `createExcelFile` tool call
and no output text. -/
def c1Response : ApiResponse :=
  { id := some "resp_1",
    output := some [.functionCall "createExcelFile" "call_1" (.argObj ⟨some [[.s "a"]]⟩)],
    output_text := none }

/-- Oracle: the primary call succeeds, the follow-up call fails. -/
def c1State : RunState :=
  { lastResponseId := none, api := [.ok c1Response, .error ⟨"network down"⟩], uploads := [] }

/-- The inbound turn for the C1 run. -/
def c1Msg : InboundMsg := { messageText := some "make an excel", media := [] }

/-- C1 (code-bug demonstration): with a successful primary call whose
response contains a spreadsheet tool call that produces a tool-result
placeholder, and a failing follow-up call, `UserSays` resolves successfully —
the follow-up transport error is rethrown by the inner catch (source line
526) but swallowed by the outer catch of `extractExcelFilesFromResponse`
(source lines 532-534) — and the sink is never invoked, neither with a
message nor with an error. The two `apiCall` events show the follow-up was
attempted. The claim (and §4.5/§7 of the specification) requires the turn to
fail with the wrapped transport error instead. -/
theorem c1_followup_failure_swallowed :
    (UserSays c1Config fixtureExt c1Msg c1State).result = .ok () ∧
    sinkCount (UserSays c1Config fixtureExt c1Msg c1State).events = 0 ∧
    (UserSays c1Config fixtureExt c1Msg c1State).events =
      [.apiCall none [.message "user" [.inputText "make an excel"]],
       .apiCall (some "resp_1") [.functionCallOutput "call_1" ""]] ∧
    (UserSays c1Config fixtureExt c1Msg c1State).excelAttachments =
      [excelAttachment "UEsDBA=="] :=
  ⟨rfl, rfl, rfl, rfl⟩

/-- Upload transport, plain-text output mode. -/
def c2Config : Config := { fileSendMode := "upload", respondAsBotiumJson := false }

/-- An image attachment with byte content. -/
def c2Att (nm : String) : MediaAtt :=
  { mediaUri := none, altText := none, name := some nm,
    buffer := some [0], mimeType := some "image/png" }

/-- Two image attachments in one turn. -/
def c2Msg : InboundMsg :=
  { messageText := some "two images", media := [c2Att "a.png", c2Att "b.png"] }

/-- Oracle: the first upload succeeds with handle `file_1`, the second upload
fails. -/
def c2State : RunState :=
  { lastResponseId := none, api := [],
    uploads := [.ok ⟨some "file_1"⟩, .error ⟨"disk full"⟩] }

/-- C2 (code-bug demonstration): when a second upload fails after a first
upload succeeded, the turn fails with the upload error, the successfully
created handle `file_1` is recorded in `uploadedFileIds` — yet no deletion
call ever happens, because `await buildUserContent()` sits *outside* the
`try`/`finally` (source line 622), so the `finally` cleanup (source lines
691-699) never runs on this path and the handle leaks. The claim (and the
resource-leak invariant of §3/§8) requires exactly one deletion call for
`file_1`. -/
theorem c2_upload_failure_skips_cleanup :
    (UserSays c2Config fixtureExt c2Msg c2State).result =
      .error ⟨"Error uploading image to OpenAI: disk full"⟩ ∧
    (UserSays c2Config fixtureExt c2Msg c2State).uploadedFileIds = ["file_1"] ∧
    deletedIds (UserSays c2Config fixtureExt c2Msg c2State).events = [] ∧
    (UserSays c2Config fixtureExt c2Msg c2State).events = [.uploadCall, .uploadCall] :=
  ⟨rfl, rfl, rfl, rfl⟩

/-! ## Sink-freeness of the non-emitting pipeline stages -/

theorem sinkCount_append (a b : List Event) :
    sinkCount (a ++ b) = sinkCount a + sinkCount b := by
  simp [sinkCount, List.filter_append]

theorem sinkCount_cleanupEvents (ids : List String) : sinkCount (cleanupEvents ids) = 0 := by
  induction ids with
  | nil => rfl
  | cons i ids ih =>
      simp only [cleanupEvents, sinkCount, isBotSaysEvent, List.map_cons,
        List.filter_cons_of_neg] at ih ⊢
      exact ih

theorem sinkCount_callOpenAi (s : RunState) (input : List InputItem) :
    sinkCount (callOpenAi s input).2.2 = 0 := by
  rcases s with ⟨lri, api, uploads⟩
  cases api with
  | nil => rfl
  | cons r rest => cases r <;> rfl

theorem sinkCount_processAttachments (cfg : Config) (ext : Externals) :
    ∀ (atts : List MediaAtt) (content : List ContentItem) (ids : List String) (s : RunState),
      sinkCount (processAttachments cfg ext atts content ids s).2.2.2 = 0 := by
  intro atts
  induction atts with
  | nil => intro content ids s; rfl
  | cons a rest ih =>
      intro content ids s
      simp only [processAttachments]
      cases hbuf : a.buffer with
      | none => exact ih _ _ _
      | some buf =>
          dsimp only
          by_cases himg : isImageMime a.mimeType = true
          · rw [if_pos himg]
            by_cases hmode : cfg.fileSendMode = "base64"
            · rw [if_pos hmode]; exact ih _ _ _
            · rw [if_neg hmode]
              cases hup : s.uploads with
              | nil => rfl
              | cons u us =>
                  cases u with
                  | error e => rfl
                  | ok fu =>
                      dsimp only
                      by_cases hid : jsTruthyStr fu.id = true
                      · rw [if_pos hid]
                        simpa [afterUpload, sinkCount, isBotSaysEvent] using ih _ _ _
                      · rw [if_neg hid]
                        simpa [afterUpload, sinkCount, isBotSaysEvent] using ih _ _ _
          · rw [if_neg himg]
            by_cases htxt : isTextAttachment a.mimeType (effName a) = true
            · rw [if_pos htxt]; exact ih _ _ _
            · rw [if_neg htxt]; exact ih _ _ _

theorem sinkCount_buildUserContent (cfg : Config) (ext : Externals) (msg : InboundMsg)
    (s : RunState) : sinkCount (buildUserContent cfg ext msg s).2.2.2 = 0 := by
  unfold buildUserContent
  have h := sinkCount_processAttachments cfg ext msg.media
    (if jsTruthyStr msg.messageText then [.inputText (msg.messageText.getD "")] else []) [] s
  rcases hpa : processAttachments cfg ext msg.media
      (if jsTruthyStr msg.messageText then [.inputText (msg.messageText.getD "")] else []) [] s
    with ⟨res, ids, s2, evs⟩
  rw [hpa] at h
  dsimp only
  rw [hpa]
  cases res <;> simpa using h

theorem sinkCount_extractExcel (ext : Externals) (response : ApiResponse) (s : RunState) :
    sinkCount (extractExcelFilesFromResponse ext response s).2.2.2 = 0 := by
  unfold extractExcelFilesFromResponse
  cases response.output with
  | none => rfl
  | some items =>
      dsimp only
      cases hpo : (processOutputItems ext items).2 with
      | nil => rfl
      | cons fc fcs =>
          have h := sinkCount_callOpenAi s (fc :: fcs)
          rcases hco : callOpenAi s (fc :: fcs) with ⟨res, s2, evs⟩
          rw [hco] at h
          dsimp only
          rw [hco]
          cases res <;> simpa using h

theorem sinkCount_nil : sinkCount [] = 0 := rfl

theorem sinkCount_botSays_singleton (m : BotMsg) (d : Bool) :
    sinkCount [Event.botSays m d] = 1 := rfl

theorem sinkCount_botSays_cons (m : BotMsg) (d : Bool) (evs : List Event) :
    sinkCount (Event.botSays m d :: evs) = sinkCount evs + 1 := by
  simp [sinkCount, isBotSaysEvent]

theorem botSays_not_mem_of_sinkCount_zero (evs : List Event) (h : sinkCount evs = 0)
    (m : BotMsg) (d : Bool) : Event.botSays m d ∉ evs := by
  intro hm
  have hmem := List.mem_filter.mpr ⟨hm, show isBotSaysEvent (Event.botSays m d) = true from rfl⟩
  rw [sinkCount, List.length_eq_zero] at h
  rw [h] at hmem
  cases hmem

/-- C4: for every turn, the external sink is invoked at most once; every
invocation is deferred (`setTimeout`, not inline); a failed turn invokes it
zero times; and a successful turn invokes it exactly once when the final
response yielded non-empty assistant text or a successfully parsed structured
payload, and zero times otherwise. -/
theorem c4_at_most_one_deferred_emission (cfg : Config) (ext : Externals)
    (msg : InboundMsg) (s0 : RunState) :
    sinkCount (UserSays cfg ext msg s0).events ≤ 1 ∧
    (∀ m d, Event.botSays m d ∈ (UserSays cfg ext msg s0).events → d = true) ∧
    (∀ e, (UserSays cfg ext msg s0).result = .error e →
      sinkCount (UserSays cfg ext msg s0).events = 0) ∧
    ((UserSays cfg ext msg s0).result = .ok () →
      sinkCount (UserSays cfg ext msg s0).events =
        if (UserSays cfg ext msg s0).assistantText ≠ "" ∨
            (UserSays cfg ext msg s0).botiumJson.isSome
        then 1 else 0) := by
  unfold UserSays
  rcases hbc : buildUserContent cfg ext msg s0 with ⟨res1, ids, s1, evs1⟩
  have hevs1 : sinkCount evs1 = 0 := by
    have h := sinkCount_buildUserContent cfg ext msg s0
    rw [hbc] at h; simpa using h
  cases res1 with
  | error e =>
      dsimp only
      exact ⟨by simp [hevs1],
        fun m d hm => absurd hm (botSays_not_mem_of_sinkCount_zero evs1 hevs1 m d),
        fun _ _ => hevs1,
        by intro h; cases h⟩
  | ok input =>
      dsimp only
      rcases hco : callOpenAi s1 input with ⟨res2, s2, evs2⟩
      have hevs2 : sinkCount evs2 = 0 := by
        have h := sinkCount_callOpenAi s1 input
        rw [hco] at h; simpa using h
      cases res2 with
      | error e =>
          dsimp only
          have hz : sinkCount (evs1 ++ evs2 ++ cleanupEvents ids) = 0 := by
            simp [sinkCount_append, hevs1, hevs2, sinkCount_cleanupEvents]
          exact ⟨by rw [hz]; exact Nat.zero_le 1,
            fun m d hm => absurd hm
              (botSays_not_mem_of_sinkCount_zero _ hz m d),
            fun _ _ => hz,
            by intro h; cases h⟩
      | ok response =>
          dsimp only
          rcases hex : extractExcelFilesFromResponse ext response s2 with ⟨fu, atts, s3, evs3⟩
          have hevs3 : sinkCount evs3 = 0 := by
            have h := sinkCount_extractExcel ext response s2
            rw [hex] at h; simpa using h
          dsimp only
          by_cases hcond : (parseFinalOutput cfg ext (fu.getD response)).1 ≠ "" ∨
              (parseFinalOutput cfg ext (fu.getD response)).2.isSome = true
          · rw [if_pos hcond]
            dsimp only
            refine ⟨?_, ?_, (by intro e h; cases h), ?_⟩
            · simp [sinkCount_append, hevs1, hevs2, hevs3, sinkCount_cleanupEvents,
                sinkCount_botSays_singleton, sinkCount_botSays_cons]
            · intro m d hm
              simp only [List.mem_append] at hm
              rcases hm with ((((hm | hm) | hm) | hm) | hm)
              · exact absurd hm (botSays_not_mem_of_sinkCount_zero evs1 hevs1 m d)
              · exact absurd hm (botSays_not_mem_of_sinkCount_zero evs2 hevs2 m d)
              · exact absurd hm (botSays_not_mem_of_sinkCount_zero evs3 hevs3 m d)
              · simp only [List.mem_singleton, Event.botSays.injEq] at hm
                exact hm.2
              · exact absurd hm
                  (botSays_not_mem_of_sinkCount_zero _ (sinkCount_cleanupEvents ids) m d)
            · intro _
              rw [if_pos hcond]
              simp [sinkCount_append, hevs1, hevs2, hevs3, sinkCount_cleanupEvents,
                sinkCount_botSays_singleton, sinkCount_botSays_cons]
          · rw [if_neg hcond]
            dsimp only
            have hz : sinkCount (evs1 ++ evs2 ++ evs3 ++ [] ++ cleanupEvents ids) = 0 := by
              simp [sinkCount_append, hevs1, hevs2, hevs3, sinkCount_cleanupEvents,
                sinkCount_nil]
            refine ⟨(by rw [hz]; exact Nat.zero_le 1), ?_, (by intro e h; cases h),
              (by intro _; rw [if_neg hcond]; exact hz)⟩
            exact fun m d hm => absurd hm (botSays_not_mem_of_sinkCount_zero _ hz m d)

/-- Witness for `c4_at_most_one_deferred_emission` at a concrete turn (the
C1 fixture run, whose emission condition is false). -/
theorem c4_at_most_one_deferred_emission_witness :
    sinkCount (UserSays c1Config fixtureExt c1Msg c1State).events ≤ 1 ∧
    ((UserSays c1Config fixtureExt c1Msg c1State).result = .ok () →
      sinkCount (UserSays c1Config fixtureExt c1Msg c1State).events =
        if (UserSays c1Config fixtureExt c1Msg c1State).assistantText ≠ "" ∨
            (UserSays c1Config fixtureExt c1Msg c1State).botiumJson.isSome
        then 1 else 0) :=
  ⟨(c4_at_most_one_deferred_emission c1Config fixtureExt c1Msg c1State).1,
   (c4_at_most_one_deferred_emission c1Config fixtureExt c1Msg c1State).2.2.2⟩

/-! ## The stored previous-turn identifier (C8) -/

theorem processAttachments_lastResponseId (cfg : Config) (ext : Externals) :
    ∀ (atts : List MediaAtt) (content : List ContentItem) (ids : List String) (s : RunState),
      (processAttachments cfg ext atts content ids s).2.2.1.lastResponseId =
        s.lastResponseId := by
  intro atts
  induction atts with
  | nil => intro content ids s; rfl
  | cons a rest ih =>
      intro content ids s
      simp only [processAttachments]
      cases hbuf : a.buffer with
      | none => exact ih _ _ _
      | some buf =>
          dsimp only
          by_cases himg : isImageMime a.mimeType = true
          · rw [if_pos himg]
            by_cases hmode : cfg.fileSendMode = "base64"
            · rw [if_pos hmode]; exact ih _ _ _
            · rw [if_neg hmode]
              cases hup : s.uploads with
              | nil => rfl
              | cons u us =>
                  cases u with
                  | error e => rfl
                  | ok fu =>
                      dsimp only
                      by_cases hid : jsTruthyStr fu.id = true
                      · rw [if_pos hid]
                        simpa [afterUpload] using ih _ _ _
                      · rw [if_neg hid]
                        simpa [afterUpload] using ih _ _ _
          · rw [if_neg himg]
            by_cases htxt : isTextAttachment a.mimeType (effName a) = true
            · rw [if_pos htxt]; exact ih _ _ _
            · rw [if_neg htxt]; exact ih _ _ _

theorem buildUserContent_lastResponseId (cfg : Config) (ext : Externals)
    (msg : InboundMsg) (s : RunState) :
    (buildUserContent cfg ext msg s).2.2.1.lastResponseId = s.lastResponseId := by
  unfold buildUserContent
  have h := processAttachments_lastResponseId cfg ext msg.media
    (if jsTruthyStr msg.messageText then [.inputText (msg.messageText.getD "")] else []) [] s
  rcases hpa : processAttachments cfg ext msg.media
      (if jsTruthyStr msg.messageText then [.inputText (msg.messageText.getD "")] else []) [] s
    with ⟨res, ids, s2, evs⟩
  rw [hpa] at h
  dsimp only
  rw [hpa]
  cases res <;> simpa using h

/-- C8: the stored previous-turn identifier is null at construction, after
`Start`, and after `Stop`; it is updated to the new response identifier after
every successful provider call that carries one (primary or follow-up, since
both go through `callOpenAi`); it is never changed by a failed call; and a
failed turn (`UserSays` raising) leaves the identifier exactly as it was
before the turn. -/
theorem c8_lastResponseId_lifecycle :
    (∀ api uploads, (initialRunState api uploads).lastResponseId = none) ∧
    (∀ s, (connectorStart s).lastResponseId = none) ∧
    (∀ s, (connectorStop s).lastResponseId = none) ∧
    (∀ s input r s2 evs, callOpenAi s input = (.ok r, s2, evs) →
      jsTruthyStr r.id = true → s2.lastResponseId = r.id) ∧
    (∀ s input e s2 evs, callOpenAi s input = (.error e, s2, evs) →
      s2.lastResponseId = s.lastResponseId) ∧
    (∀ cfg ext msg s0 e, (UserSays cfg ext msg s0).result = .error e →
      (UserSays cfg ext msg s0).state.lastResponseId = s0.lastResponseId) := by
  refine ⟨fun _ _ => rfl, fun _ => rfl, fun _ => rfl, ?_, ?_, ?_⟩
  · intro s input r s2 evs h htr
    unfold callOpenAi at h
    cases hapi : s.api with
    | nil => rw [hapi] at h; cases h
    | cons hd rest =>
        rw [hapi] at h
        cases hd with
        | ok resp =>
            dsimp only at h
            injection h with h1 h2
            injection h2 with h2 h3
            cases h1
            rw [← h2]
            simp [htr]
        | error e => dsimp only at h; injection h with h1 _; cases h1
  · intro s input e s2 evs h
    unfold callOpenAi at h
    cases hapi : s.api with
    | nil =>
        rw [hapi] at h
        injection h with h1 h2
        injection h2 with h2 h3
        rw [← h2]
    | cons hd rest =>
        rw [hapi] at h
        cases hd with
        | ok resp => dsimp only at h; injection h with h1 _; cases h1
        | error e2 =>
            dsimp only at h
            injection h with h1 h2
            injection h2 with h2 h3
            rw [← h2]
  · intro cfg ext msg s0 e h
    unfold UserSays at h ⊢
    have hb := buildUserContent_lastResponseId cfg ext msg s0
    rcases hbc : buildUserContent cfg ext msg s0 with ⟨res1, ids, s1, evs1⟩
    rw [hbc] at hb h
    simp only at hb
    cases res1 with
    | error e1 => simpa using hb
    | ok input =>
        dsimp only at h ⊢
        rcases hco : callOpenAi s1 input with ⟨res2, s2, evs2⟩
        rw [hco] at h
        cases res2 with
        | error e2 =>
            dsimp only at h ⊢
            have hc : s2.lastResponseId = s1.lastResponseId := by
              unfold callOpenAi at hco
              cases hapi : s1.api with
              | nil =>
                  rw [hapi] at hco
                  injection hco with h1 h2
                  injection h2 with h2 h3
                  rw [← h2]
              | cons hd rest =>
                  rw [hapi] at hco
                  cases hd with
                  | ok resp => dsimp only at hco; injection hco with h1 _; cases h1
                  | error e3 =>
                      dsimp only at hco
                      injection hco with h1 h2
                      injection h2 with h2 h3
                      rw [← h2]
            rw [hc, hb]
        | ok response =>
            dsimp only at h
            cases h

/-- Witness for `c8_lastResponseId_lifecycle`: a failed primary call leaves
the identifier of the previous turn in place. -/
theorem c8_lastResponseId_lifecycle_witness :
    callOpenAi { lastResponseId := some "resp_0", api := [.error ⟨"boom"⟩], uploads := [] }
        [] =
      (.error ⟨"boom"⟩,
       { lastResponseId := some "resp_0", api := [], uploads := [] },
       [.apiCall (some "resp_0") []]) ∧
    ({ lastResponseId := some "resp_0", api := [], uploads := [] } : RunState).lastResponseId =
      some "resp_0" :=
  ⟨rfl, c8_lastResponseId_lifecycle.2.2.2.2.1
    { lastResponseId := some "resp_0", api := [.error ⟨"boom"⟩], uploads := [] } [] ⟨"boom"⟩
    { lastResponseId := some "resp_0", api := [], uploads := [] }
    [.apiCall (some "resp_0") []] rfl⟩

/-! ## Attachment disposition order (C7) -/

/-- C7: the disposition of an inbound attachment is decided in this fixed
order: no byte content skips; otherwise an `image/` MIME type gives the image
disposition; otherwise a plain-text (`text/`) or structured-text MIME type,
or — only when no MIME type is present (nullish or empty) — a filename
matching the fixed text-extension set, gives the inline-text disposition;
anything else skips — and a skipped attachment leaves the content-building
loop exactly as if it were absent, so it cannot fail the turn. -/
theorem c7_disposition_order (buf : Option (List Nat)) (mime : Option String) (name : String) :
    (buf = none → disposition buf mime name = .skip) ∧
    (buf ≠ none → isImageMime mime = true → disposition buf mime name = .image) ∧
    (buf ≠ none → isImageMime mime = false →
      (isTextByMime mime = true ∨ (jsFalsyMime mime = true ∧ isTextByName name = true)) →
      disposition buf mime name = .inlineText) ∧
    (buf ≠ none → isImageMime mime = false → isTextByMime mime = false →
      (jsFalsyMime mime = false ∨ isTextByName name = false) →
      disposition buf mime name = .skip) ∧
    (∀ (cfg : Config) (ext : Externals) (a : MediaAtt) rest content ids s,
      disposition a.buffer a.mimeType (effName a) = .skip →
      processAttachments cfg ext (a :: rest) content ids s =
        processAttachments cfg ext rest content ids s) := by
  refine ⟨?_, ?_, ?_, ?_, ?_⟩
  · intro h; rw [h]; rfl
  · intro hb himg
    cases buf with
    | none => exact absurd rfl hb
    | some b => simp [disposition, himg]
  · intro hb himg htxt
    cases buf with
    | none => exact absurd rfl hb
    | some b =>
        have ht : isTextAttachment mime name = true := by
          rcases htxt with h | ⟨h1, h2⟩
          · simp [isTextAttachment, h]
          · simp [isTextAttachment, h1, h2]
        simp [disposition, himg, ht]
  · intro hb himg htm hrest
    cases buf with
    | none => exact absurd rfl hb
    | some b =>
        have ht : isTextAttachment mime name = false := by
          rcases hrest with h | h <;> simp [isTextAttachment, htm, h]
        simp [disposition, himg, ht]
  · intro cfg ext a rest content ids s hskip
    simp only [processAttachments]
    cases hbuf : a.buffer with
    | none => rfl
    | some b =>
        rw [hbuf] at hskip
        simp only [disposition] at hskip
        dsimp only
        by_cases himg : isImageMime a.mimeType = true
        · rw [if_pos himg] at hskip; cases hskip
        · rw [if_neg himg] at hskip
          rw [if_neg himg]
          by_cases ht : isTextAttachment a.mimeType (effName a) = true
          · rw [if_pos ht] at hskip; cases hskip
          · rw [if_neg ht]

/-- Witness for `c7_disposition_order`: a JSON attachment with bytes is
inlined as text, and a byte-less attachment is skipped by the loop. -/
theorem c7_disposition_order_witness :
    disposition (some [1]) (some "application/json") "data.bin" = .inlineText ∧
    disposition none (some "application/pdf") "a.pdf" = .skip :=
  ⟨(c7_disposition_order (some [1]) (some "application/json") "data.bin").2.2.1
      (by simp) (by decide) (Or.inl (by decide)),
   (c7_disposition_order none (some "application/pdf") "a.pdf").1 rfl⟩

/-! ## Tool-execution errors are non-fatal (C9) -/

/-- The combined outcome of argument parsing plus workbook generation for one
tool call raising (`JSON.parse` at lines 486-488 or `createExcelFile` at
lines 352-366): `true` when the caught path of source lines 505-507 runs. -/
def excelGenerationFails (ext : Externals) (args : FnArgs) : Bool :=
  match resolveArgs ext args with
  | .error _ => true
  | .ok a =>
      match createExcelFile ext a.data with
      | .error _ => true
      | .ok _ => false

/-- C9: a spreadsheet tool call whose execution raises is caught locally
and dropped — no tool-result placeholder, no outbound attachment, no
follow-up call, and the state is untouched; a tool call naming any other
function is likewise ignored without error; and no tool-path outcome can fail
the turn — once the primary call succeeded, `UserSays` resolves successfully. -/
theorem c9_tool_error_dropped :
    (∀ (ext : Externals) (resp : ApiResponse) (callId : String) (args : FnArgs) (s : RunState),
      resp.output = some [.functionCall "createExcelFile" callId args] →
      excelGenerationFails ext args = true →
      extractExcelFilesFromResponse ext resp s = (none, [], s, [])) ∧
    (∀ (ext : Externals) (resp : ApiResponse) (nm callId : String) (args : FnArgs) (s : RunState),
      nm ≠ "createExcelFile" →
      resp.output = some [.functionCall nm callId args] →
      extractExcelFilesFromResponse ext resp s = (none, [], s, [])) ∧
    (∀ (cfg : Config) (ext : Externals) (msg : InboundMsg) (s0 : RunState) input ids s1 evs1
        response s2 evs2,
      buildUserContent cfg ext msg s0 = (.ok input, ids, s1, evs1) →
      callOpenAi s1 input = (.ok response, s2, evs2) →
      (UserSays cfg ext msg s0).result = .ok ()) := by
  refine ⟨?_, ?_, ?_⟩
  · intro ext resp callId args s hout hfail
    have hpo : processOutputItems ext [.functionCall "createExcelFile" callId args] = ([], []) := by
      unfold excelGenerationFails at hfail
      cases hra : resolveArgs ext args with
      | error m => simp [processOutputItems, hra]
      | ok a =>
          rw [hra] at hfail
          dsimp only at hfail
          cases hce : createExcelFile ext a.data with
          | error m => simp [processOutputItems, hra, hce]
          | ok b64 => rw [hce] at hfail; simp at hfail
    unfold extractExcelFilesFromResponse
    rw [hout]
    dsimp only
    rw [hpo]
  · intro ext resp nm callId args s hnm hout
    have hpo : processOutputItems ext [.functionCall nm callId args] = ([], []) := by
      simp [processOutputItems, hnm]
    unfold extractExcelFilesFromResponse
    rw [hout]
    dsimp only
    rw [hpo]
  · intro cfg ext msg s0 input ids s1 evs1 response s2 evs2 hbc hco
    unfold UserSays
    rw [hbc]
    dsimp only
    rw [hco]

/-- Witness for `c9_tool_error_dropped`: a malformed tool call (its workbook
generation raising) is dropped without touching the state. -/
theorem c9_tool_error_dropped_witness :
    extractExcelFilesFromResponse
      { fixtureExt with xlsxWriteB64 := fun _ => .error "malformed rows" }
      { id := some "r1",
        output := some [.functionCall "createExcelFile" "call_1" (.argObj ⟨none⟩)],
        output_text := none }
      { lastResponseId := none, api := [], uploads := [] } =
      (none, [], { lastResponseId := none, api := [], uploads := [] }, []) :=
  c9_tool_error_dropped.1
    { fixtureExt with xlsxWriteB64 := fun _ => .error "malformed rows" }
    { id := some "r1",
      output := some [.functionCall "createExcelFile" "call_1" (.argObj ⟨none⟩)],
      output_text := none }
    "call_1" (.argObj ⟨none⟩)
    { lastResponseId := none, api := [], uploads := [] } rfl rfl

/-! ## Upload succeeding without an id (C10) -/

/-- C10: in upload mode, when the provider's `files.create` resolves
without a truthy id, the image attachment is silently skipped — no content
fragment, no recorded handle, and `buildUserContent` still succeeds; whereas
an upload that raises aborts content building with the wrapping upload
error. -/
theorem c10_upload_without_id_skipped (cfg : Config) (ext : Externals) (msg : InboundMsg)
    (a : MediaAtt) (buf : List Nat) (s0 : RunState)
    (hmedia : msg.media = [a]) (hbuf : a.buffer = some buf)
    (himg : isImageMime a.mimeType = true) (hmode : cfg.fileSendMode ≠ "base64") :
    (∀ u us, s0.uploads = .ok u :: us → jsTruthyStr u.id = false →
      buildUserContent cfg ext msg s0 =
        (.ok [.message "user"
            (if jsTruthyStr msg.messageText then [.inputText (msg.messageText.getD "")] else [])],
         [], { s0 with uploads := us }, [.uploadCall])) ∧
    (∀ e us, s0.uploads = .error e :: us →
      buildUserContent cfg ext msg s0 =
        (.error ⟨"Error uploading image to OpenAI: " ++ e.message⟩, [],
         { s0 with uploads := us }, [.uploadCall])) := by
  constructor
  · intro u us hup hid
    unfold buildUserContent
    rw [hmedia]
    simp only [processAttachments, hbuf]
    rw [if_pos himg, if_neg hmode, hup]
    dsimp only
    rw [if_neg (by simp [hid])]
    simp [processAttachments, afterUpload]
  · intro e us hup
    unfold buildUserContent
    rw [hmedia]
    simp only [processAttachments, hbuf]
    rw [if_pos himg, if_neg hmode, hup]

/-- Witness for `c10_upload_without_id_skipped`: a concrete single-image turn
whose upload resolves without an id. -/
theorem c10_upload_without_id_skipped_witness :
    buildUserContent c2Config fixtureExt
      { messageText := some "hi", media := [c2Att "a.png"] }
      { lastResponseId := none, api := [], uploads := [.ok ⟨none⟩] } =
      (.ok [.message "user" [.inputText "hi"]], [],
       { lastResponseId := none, api := [], uploads := [] }, [.uploadCall]) :=
  (c10_upload_without_id_skipped c2Config fixtureExt
      { messageText := some "hi", media := [c2Att "a.png"] }
      (c2Att "a.png") [0]
      { lastResponseId := none, api := [], uploads := [.ok ⟨none⟩] }
      rfl rfl rfl (by decide)).1 ⟨none⟩ [] rfl rfl

/-! ## Strict-mode structured round-trip (C3) -/

/-- Whenever a structured payload parsed, the emitted message is exactly the
assembly of `buildBotMsg` over it (the emission condition is then true). -/
theorem UserSays_emitted_of_botiumJson (cfg : Config) (ext : Externals) (msg : InboundMsg)
    (s0 : RunState) (p : JSValue)
    (hp : (UserSays cfg ext msg s0).botiumJson = some p) :
    (UserSays cfg ext msg s0).emitted =
      some (buildBotMsg (some p) (UserSays cfg ext msg s0).assistantText
        (UserSays cfg ext msg s0).excelAttachments) := by
  unfold UserSays at hp ⊢
  rcases hbc : buildUserContent cfg ext msg s0 with ⟨res1, ids, s1, evs1⟩
  rw [hbc] at hp
  cases res1 with
  | error e => cases hp
  | ok input =>
      dsimp only at hp ⊢
      rcases hco : callOpenAi s1 input with ⟨res2, s2, evs2⟩
      rw [hco] at hp
      cases res2 with
      | error e => cases hp
      | ok response =>
          dsimp only at hp ⊢
          rcases hex : extractExcelFilesFromResponse ext response s2 with ⟨fu, atts, s3, evs3⟩
          rw [hex] at hp
          dsimp only at hp ⊢
          have hcond : (parseFinalOutput cfg ext (fu.getD response)).1 ≠ "" ∨
              (parseFinalOutput cfg ext (fu.getD response)).2.isSome = true := by
            right
            rw [hp]
            rfl
          rw [if_pos hcond]
          dsimp only
          rw [hp]

/-- The six-field structured contract: `messageText` and `intent` strings,
the four list fields arrays (the schema of source lines 10-83 with all fields
required). -/
def validSixField (fs : List (String × JSValue)) : Bool :=
  (match lookupField fs "messageText" with | some (.str _) => true | _ => false) &&
  (match lookupField fs "buttons" with | some (.arr _) => true | _ => false) &&
  (match lookupField fs "media" with | some (.arr _) => true | _ => false) &&
  (match lookupField fs "attachments" with | some (.arr _) => true | _ => false) &&
  (match lookupField fs "cards" with | some (.arr _) => true | _ => false) &&
  (match lookupField fs "intent" with | some (.str _) => true | _ => false)

/-- C3 (amended): in strict mode, when the final response parsed as a
valid six-field object, the emitted message's structured fields equal the
parsed payload's fields verbatim — except that the attachments field is
*always* replaced by the tool-produced artifact list of the turn, which is
empty when no artifact was produced (source line 681 assigns
`excelAttachments` unconditionally). -/
theorem c3_strict_roundtrip (cfg : Config) (ext : Externals) (msg : InboundMsg)
    (s0 : RunState) (fs : List (String × JSValue))
    (_hstrict : cfg.respondAsBotiumJson = true)
    (hp : (UserSays cfg ext msg s0).botiumJson = some (.obj fs))
    (hvalid : validSixField fs = true) :
    ∃ m, (UserSays cfg ext msg s0).emitted = some m ∧
      m.messageText = lookupField fs "messageText" ∧
      m.buttons = lookupField fs "buttons" ∧
      m.media = lookupField fs "media" ∧
      m.cards = lookupField fs "cards" ∧
      m.intent = lookupField fs "intent" ∧
      m.attachments = some (.arr (UserSays cfg ext msg s0).excelAttachments) := by
  refine ⟨_, UserSays_emitted_of_botiumJson cfg ext msg s0 (.obj fs) hp, ?_, ?_, ?_, ?_, ?_, ?_⟩
  · simp [buildBotMsg, payloadField]
  · simp only [validSixField, Bool.and_eq_true] at hvalid
    obtain ⟨⟨⟨⟨⟨_, hb⟩, _⟩, _⟩, _⟩, _⟩ := hvalid
    simp only [buildBotMsg, payloadArrayField, payloadField]
    cases hlb : lookupField fs "buttons" with
    | none => rw [hlb] at hb
    | some v =>
        rw [hlb] at hb
        cases v <;> simp_all
  · simp only [validSixField, Bool.and_eq_true] at hvalid
    obtain ⟨⟨⟨⟨_, hm⟩, _⟩, _⟩, _⟩ := hvalid
    simp only [buildBotMsg, payloadArrayField, payloadField]
    cases hlm : lookupField fs "media" with
    | none => rw [hlm] at hm
    | some v =>
        rw [hlm] at hm
        cases v <;> simp_all
  · simp only [validSixField, Bool.and_eq_true] at hvalid
    obtain ⟨⟨_, hc⟩, _⟩ := hvalid
    simp only [buildBotMsg, payloadArrayField, payloadField]
    cases hlc : lookupField fs "cards" with
    | none => rw [hlc] at hc
    | some v =>
        rw [hlc] at hc
        cases v <;> simp_all
  · simp only [validSixField, Bool.and_eq_true] at hvalid
    obtain ⟨_, hi⟩ := hvalid
    simp only [buildBotMsg, payloadField]
    cases hli : lookupField fs "intent" with
    | none => simp
    | some v =>
        rw [hli] at hi
        cases v <;> simp_all [jsIsNil]
  · simp [buildBotMsg]

/-- The parsed payload fields used by the C3 fixture: a valid six-field
object naming one attachment. -/
def c3Fields : List (String × JSValue) :=
  [("messageText", .str "hello"), ("buttons", .arr []), ("media", .arr []),
   ("attachments", .arr [.obj [("name", .str "a.pdf"), ("mimeType", .str "application/pdf"),
     ("base64", .str "QUJD")]]),
   ("cards", .arr []), ("intent", .str "greet")]

/-- The C3 payload value. -/
def c3Payload : JSValue := .obj c3Fields

/-- Builtins whose `JSON.parse` parses the fixed payload text. -/
def c3Ext : Externals :=
  { fixtureExt with jsonParse := fun s => if s = "PAYLOAD" then some c3Payload else none }

/-- Strict structured-output mode, inline transport. -/
def c3Config : Config := { fileSendMode := "base64", respondAsBotiumJson := true }

/-- A response whose output text is the payload and which requests no tool. -/
def c3Response : ApiResponse :=
  { id := some "r1", output := some [], output_text := some "PAYLOAD" }

/-- Oracle: one successful primary call. -/
def c3State : RunState :=
  { lastResponseId := none, api := [.ok c3Response], uploads := [] }

/-- The inbound turn for the C3 run. -/
def c3Msg : InboundMsg := { messageText := some "hi", media := [] }

/-- C3 counterexample to the claim as stated: in a strict-mode turn whose
payload parses as a valid six-field object naming one attachment, and in
which the tool executor produced *no* artifact, the emitted message's
attachments field is the empty artifact array — not the payload's
attachments, which the claim requires to be kept verbatim in this case.
`botMsg.attachments = excelAttachments` (source line 681) runs
unconditionally because `excelAttachments` is always an array. -/
theorem c3_attachments_always_overridden_counterexample :
    (UserSays c3Config c3Ext c3Msg c3State).botiumJson = some c3Payload ∧
    (UserSays c3Config c3Ext c3Msg c3State).excelAttachments = [] ∧
    ((UserSays c3Config c3Ext c3Msg c3State).emitted.map BotMsg.attachments) =
      some (some (.arr [])) ∧
    payloadField c3Payload "attachments" =
      some (.arr [.obj [("name", .str "a.pdf"), ("mimeType", .str "application/pdf"),
        ("base64", .str "QUJD")]]) ∧
    some (JSValue.arr ([] : List JSValue)) ≠ payloadField c3Payload "attachments" :=
  ⟨rfl, rfl, rfl, rfl, by simp [payloadField, c3Payload, c3Fields, lookupField]⟩

/-- Witness for `c3_strict_roundtrip` on the concrete C3 run. -/
theorem c3_strict_roundtrip_witness :
    ∃ m, (UserSays c3Config c3Ext c3Msg c3State).emitted = some m ∧
      m.messageText = lookupField c3Fields "messageText" ∧
      m.buttons = lookupField c3Fields "buttons" ∧
      m.media = lookupField c3Fields "media" ∧
      m.cards = lookupField c3Fields "cards" ∧
      m.intent = lookupField c3Fields "intent" ∧
      m.attachments = some (.arr (UserSays c3Config c3Ext c3Msg c3State).excelAttachments) :=
  c3_strict_roundtrip c3Config c3Ext c3Msg c3State c3Fields rfl rfl rfl

end ChatGpt
